import Mathlib

/-!
Shallow embedding of the `maxlikespy` model-creation tutorial
(`docs/model_creation_tutorial.ipynb`): the two example model classes
`Time` and `CatSetTime`, their `model` and `objective` methods, and the
`param_names` contract.  Python method calls that may raise (tuple
unpacking of a wrong-length vector, out-of-range indexing) are embedded
as `Option`-valued functions; mutation of instance attributes
(`self.function`) is embedded as explicit state passing: a method call
returns the value together with the instance after the call.  Numpy
float arrays are embedded as lists of real numbers, so the development is
noncomputable in the way real-valued analysis is; concrete evaluations in
the theorems below go through `simp`/`norm_num`.
-/

noncomputable section

/-- Summand of the tutorial's objective, exactly as the code writes it:
`spikes * (-np.log(fun)) + (1 - spikes) * (-np.log(1 - (fun)))`, for
one observation `o` and one predicted value `p`. -/
def nllTerm (o p : ℝ) : ℝ :=
  o * (-Real.log p) + (1 - o) * (-Real.log (1 - p))

/-- `np.sum(spikes * (-np.log(fun)) + (1 - spikes) * (-np.log(1 - (fun))))`
for a vector of observations aligned with a vector of predictions. -/
def nllSum (spikes pred : List ℝ) : ℝ :=
  ((spikes.zip pred).map (fun q => nllTerm q.1 q.2)).sum

/-- The same total sum when observations and predictions are matrices
(trials × time), as in `CatSetTime.objective`: `np.sum` adds every entry. -/
def nllSumMat (spikes pred : List (List ℝ)) : ℝ :=
  ((spikes.zip pred).map (fun r => nllSum r.1 r.2)).sum

/-- The `Time` model instance: a time-dependent gaussian component plus an
offset.  `t` is the experimental time window (computed by the external
`DataProcessor`), `spikes` the observed binary responses, `param_names`
the ordered parameter-name list set in `__init__`, and `function` the
cached last-evaluated prediction written by `model` (absent before the
first call). -/
structure Time where
  t : List ℝ
  spikes : List ℝ
  param_names : List String
  function : Option (List ℝ)

/-- Input data handed to the constructor: the time window and the
observed responses. -/
structure TimeData where
  time_window : List ℝ
  observed_response : List ℝ

/-- Modelled from the spec: the base `Model` constructor (the `maxlikespy`
base class is not part of the reviewed document) stores the data loader's
time window and observed responses on the instance; `Time.__init__` then
sets `param_names = ["a_1", "ut", "st", "a_0"]`.  No prediction has been
cached yet. -/
def Time.fromData (d : TimeData) : Time :=
  { t := d.time_window
  , spikes := d.observed_response
  , param_names := ["a_1", "ut", "st", "a_0"]
  , function := none }

/-- `Time.model`: unpacks `a_1, ut, st, a_0 = x` (a Python tuple unpacking
that raises unless `x` has exactly four entries, embedded as the four-element
pattern), computes
`a_1 * np.exp(-np.power(self.t - ut, 2.) / (2 * np.power(st, 2.))) + a_0`
over the time window, stores it in `self.function` and returns it. -/
def Time.model (m : Time) (x : List ℝ) : Option (List ℝ × Time) :=
  match x with
  | [a_1, ut, st, a_0] =>
      let f := m.t.map (fun tv =>
        a_1 * Real.exp (-(tv - ut) ^ 2 / (2 * st ^ 2)) + a_0)
      some (f, { m with function := some f })
  | _ => none

/-- `Time.objective`: calls `self.model(x)` and returns
`np.sum(self.spikes * (-np.log(fun)) + (1 - self.spikes) * (-np.log(1 - (fun))))`.
An unpacking error inside `model` propagates. -/
def Time.objective (m : Time) (x : List ℝ) : Option (ℝ × Time) :=
  (m.model x).map (fun pr => (nllSum m.spikes pr.1, pr.2))

/-- The `CatSetTime` model instance: separate time-dependent gaussian
amplitudes per condition label.  `plot_t` keeps the original window,
`t` is the window tiled over trials (`np.tile(self.t, (num_trials, 1))`),
`conditions` is the per-label indicator table from the data dict
(label ↦ per-trial indicator vector). -/
structure CatSetTime where
  plot_t : List ℝ
  t : List (List ℝ)
  spikes : List (List ℝ)
  conditions : ℕ → List ℝ
  param_names : List String

/-- Input data for `CatSetTime`: time window, per-trial observed
responses, trial count, and the condition-indicator table loaded from
`conditions.json`. -/
structure CatData where
  time_window : List ℝ
  observed_response : List (List ℝ)
  num_trials : ℕ
  conditions : ℕ → List ℝ

/-- Modelled from the spec: the base `Model` constructor stores the time
window and observed responses; `CatSetTime.__init__` then keeps `plot_t`,
tiles `t` across `num_trials` rows, stores `data["conditions"]`, and sets
`param_names = ["ut", "st", "a_0", "a_1", "a_2"]`. -/
def CatSetTime.fromData (d : CatData) : CatSetTime :=
  { plot_t := d.time_window
  , t := List.replicate d.num_trials d.time_window
  , spikes := d.observed_response
  , conditions := d.conditions
  , param_names := ["ut", "st", "a_0", "a_1", "a_2"] }

/-- `CatSetTime.model`: reads `ut, st, a_0 = x[0], x[1], x[2]` and
`a_1, a_2 = x[3], x[4]` by indexing (a Python `IndexError` when `x` has
fewer than five entries; extra entries beyond the fifth are never read),
takes the per-trial indicators `c1 = self.conditions[1]`,
`c2 = self.conditions[2]`, and returns
`a_1*c1*np.exp(-(t-ut)^2/(2*st^2)) + a_2*c2*np.exp(-(t-ut)^2/(2*st^2)) + a_0`
with the indicators applied per trial row of the tiled window.  The
instance is returned unchanged: this method writes no attribute. -/
def CatSetTime.model (m : CatSetTime) (x : List ℝ) :
    Option (List (List ℝ) × CatSetTime) :=
  match x with
  | ut :: st :: a_0 :: a_1 :: a_2 :: _ =>
      let c1 := m.conditions 1
      let c2 := m.conditions 2
      some ((((c1.zip c2).zip m.t).map (fun cr =>
        cr.2.map (fun tv =>
          a_1 * cr.1.1 * Real.exp (-(tv - ut) ^ 2 / (2 * st ^ 2)) +
            a_2 * cr.1.2 * Real.exp (-(tv - ut) ^ 2 / (2 * st ^ 2)) + a_0))), m)
  | _ => none

/-- `CatSetTime.objective`: calls `self.model(x)` and returns the same
Bernoulli log-loss sum, `np.sum` now running over the whole
trials × time matrix. -/
def CatSetTime.objective (m : CatSetTime) (x : List ℝ) :
    Option (ℝ × CatSetTime) :=
  (m.model x).map (fun pr => (nllSumMat m.spikes pr.1, pr.2))

/-- The spec's canonical Bernoulli log-loss summand, written as the spec
words it: `-o_i*log(p_i) - (1-o_i)*log(1-p_i)`.  Declared separately from
`nllTerm` (the code's expression) so the two can be compared. -/
def bernoulliTerm (o p : ℝ) : ℝ :=
  -(o * Real.log p) - (1 - o) * Real.log (1 - p)

/-- The spec's canonical cost `sum_i [ -o_i*log(p_i) - (1-o_i)*log(1-p_i) ]`
over aligned observation and prediction vectors. -/
def bernoulliNLL (obs pred : List ℝ) : ℝ :=
  ((obs.zip pred).map (fun q => bernoulliTerm q.1 q.2)).sum

/-- The spec's canonical cost summed over a trials × time matrix of
observations and predictions. -/
def bernoulliNLLMat (obs pred : List (List ℝ)) : ℝ :=
  ((obs.zip pred).map (fun r => bernoulliNLL r.1 r.2)).sum

/-- The spec's exchanged amplitude-to-condition pairing, for comparison
with `CatSetTime.model`: identical except that `a_1` multiplies `c2` and
`a_2` multiplies `c1`. -/
def CatSetTime.modelSwapped (m : CatSetTime) (x : List ℝ) :
    Option (List (List ℝ) × CatSetTime) :=
  match x with
  | ut :: st :: a_0 :: a_1 :: a_2 :: _ =>
      let c1 := m.conditions 1
      let c2 := m.conditions 2
      some ((((c1.zip c2).zip m.t).map (fun cr =>
        cr.2.map (fun tv =>
          a_1 * cr.1.2 * Real.exp (-(tv - ut) ^ 2 / (2 * st ^ 2)) +
            a_2 * cr.1.1 * Real.exp (-(tv - ut) ^ 2 / (2 * st ^ 2)) + a_0))), m)
  | _ => none

/-- A concrete `Time` instance: one sample at `t = 0` with one observed
spike. -/
def tEx : Time :=
  Time.fromData { time_window := [0], observed_response := [1] }

/-- `tEx` with a stale cached prediction, to exhibit that the cache does
not influence evaluations. -/
def tExCache : Time :=
  { tEx with function := some [5] }

/-- The prediction `tEx.model [1, 0, 1, 0]` returns, written out. -/
def tExF : List ℝ :=
  [(1 : ℝ) * Real.exp (-((0 : ℝ) - 0) ^ 2 / (2 * (1 : ℝ) ^ 2)) + 0]

/-- The instance state after the call `tEx.model [1, 0, 1, 0]`. -/
def tExM : Time :=
  { t := [0], spikes := [1], param_names := ["a_1", "ut", "st", "a_0"]
  , function := some tExF }

/-- A degenerate `Time` instance holding no samples at all. -/
def tEmpty : Time :=
  Time.fromData { time_window := [], observed_response := [] }

/-- A concrete `CatSetTime` instance: two trials, one sample at `t = 0`,
and condition indicators that differ across the trials (trial 0 carries
label 1, trial 1 carries label 2). -/
def cstEx : CatSetTime :=
  CatSetTime.fromData
    { time_window := [0]
    , observed_response := [[1], [0]]
    , num_trials := 2
    , conditions := fun k =>
        if k = 1 then [1, 0] else if k = 2 then [0, 1] else [] }

/-- `cstEx` with a different plotting window but identical held data,
to exhibit that `plot_t` does not influence evaluations. -/
def cstEx2 : CatSetTime :=
  { cstEx with plot_t := [9] }

theorem nllTerm_eq_bernoulliTerm (o p : ℝ) : nllTerm o p = bernoulliTerm o p := by
  simp only [nllTerm, bernoulliTerm]
  ring

theorem nllSum_eq_bernoulliNLL (obs pred : List ℝ) :
    nllSum obs pred = bernoulliNLL obs pred := by
  have h : (fun q : ℝ × ℝ => nllTerm q.1 q.2)
      = fun q : ℝ × ℝ => bernoulliTerm q.1 q.2 :=
    funext fun q => nllTerm_eq_bernoulliTerm q.1 q.2
  rw [nllSum, bernoulliNLL, h]

theorem nllSumMat_eq_bernoulliNLLMat (obs pred : List (List ℝ)) :
    nllSumMat obs pred = bernoulliNLLMat obs pred := by
  have h : (fun r : List ℝ × List ℝ => nllSum r.1 r.2)
      = fun r : List ℝ × List ℝ => bernoulliNLL r.1 r.2 :=
    funext fun r => nllSum_eq_bernoulliNLL r.1 r.2
  rw [nllSumMat, bernoulliNLLMat, h]

theorem nllTerm_pos (o p : ℝ) (ho : o = 0 ∨ o = 1) (hp0 : 0 < p) (hp1 : p < 1) :
    0 < nllTerm o p := by
  rcases ho with h | h <;> subst h <;> simp [nllTerm]
  · exact Real.log_neg (by linarith) (by linarith)
  · exact Real.log_neg hp0 hp1

theorem nllSum_pos (spikes pred : List ℝ)
    (hne : spikes ≠ []) (hlen : spikes.length = pred.length)
    (hobs : ∀ o ∈ spikes, o = 0 ∨ o = 1)
    (hpred : ∀ q ∈ pred, 0 < q ∧ q < 1) :
    0 < nllSum spikes pred := by
  rw [nllSum]
  apply List.sum_pos
  · intro y hy
    obtain ⟨q, hq, rfl⟩ := List.mem_map.mp hy
    have hmem := List.of_mem_zip hq
    exact nllTerm_pos q.1 q.2 (hobs q.1 hmem.1) (hpred q.2 hmem.2).1
      (hpred q.2 hmem.2).2
  · apply List.ne_nil_of_length_pos
    rw [List.length_map, List.length_zip, ← hlen, Nat.min_self]
    exact List.length_pos.mpr hne

/-- Claim C1: for every parameter vector `x` and every `Time` or
`CatSetTime` instance, `objective x` is exactly the Bernoulli negative
log-likelihood `sum_i [ -o_i*log(p_i) - (1-o_i)*log(1-p_i) ]` of the
observed spikes against the prediction `model x` (summed over every
observation; for `CatSetTime` over every trial × time entry). -/
theorem objective_is_bernoulli_nll :
    (∀ (m : Time) (x : List ℝ),
      m.objective x =
        (m.model x).map (fun pr => (bernoulliNLL m.spikes pr.1, pr.2))) ∧
    (∀ (m : CatSetTime) (x : List ℝ),
      m.objective x =
        (m.model x).map (fun pr => (bernoulliNLLMat m.spikes pr.1, pr.2))) := by
  constructor
  · intro m x
    rw [Time.objective]
    exact congrArg (fun f => Option.map f (m.model x))
      (funext fun pr => by rw [nllSum_eq_bernoulliNLL])
  · intro m x
    rw [CatSetTime.objective]
    exact congrArg (fun f => Option.map f (m.model x))
      (funext fun pr => by rw [nllSumMat_eq_bernoulliNLLMat])

/-- Claim C2: for the `Time` model, when the held time window is the
single point `[0]` and the parameter vector is `(a_1, ut, st, a_0) =
(1, 0, 1, 0)`, the prediction is `[1]`: the gaussian's peak value at its
center. -/
theorem time_model_peak_value (m : Time) (h : m.t = [0]) :
    (m.model [1, 0, 1, 0]).map Prod.fst = some [1] := by
  simp [Time.model, h, Real.exp_zero]

/-- Witness for C2: the concrete instance `tEx` holds time window `[0]`,
and evaluating its model at `(1, 0, 1, 0)` yields `[1]`. -/
theorem time_model_peak_value_witness :
    (tEx.model [1, 0, 1, 0]).map Prod.fst = some [1] :=
  time_model_peak_value tEx rfl

/-- Claim C9: in `CatSetTime`, the two condition components share the
same gaussian center `ut` and width `st`: for every parameter vector the
prediction is `(a_1*c1 + a_2*c2) * exp(-(t-ut)^2/(2*st^2)) + a_0`
per trial and sample, so the components differ only in amplitude. -/
theorem catsettime_shared_center_width (m : CatSetTime)
    (ut st a_0 a_1 a_2 : ℝ) (rest : List ℝ) :
    (m.model (ut :: st :: a_0 :: a_1 :: a_2 :: rest)).map Prod.fst =
      some ((((m.conditions 1).zip (m.conditions 2)).zip m.t).map (fun cr =>
        cr.2.map (fun tv =>
          (a_1 * cr.1.1 + a_2 * cr.1.2) *
            Real.exp (-(tv - ut) ^ 2 / (2 * st ^ 2)) + a_0))) := by
  simp only [CatSetTime.model, Option.map_some']
  refine congrArg some ?_
  refine congrFun (congrArg List.map (funext fun cr => ?_)) _
  refine congrFun (congrArg List.map (funext fun tv => ?_)) _
  ring

/-- Witness for C9 at a concrete instance and parameter vector: the
prediction of `cstEx.model [0, 1, 0, 1, 2]` factors through the shared
gaussian. -/
theorem catsettime_shared_center_width_witness :
    (cstEx.model [0, 1, 0, 1, 2]).map Prod.fst =
      some ((((cstEx.conditions 1).zip (cstEx.conditions 2)).zip cstEx.t).map
        (fun cr => cr.2.map (fun tv =>
          ((1 : ℝ) * cr.1.1 + 2 * cr.1.2) *
            Real.exp (-(tv - 0) ^ 2 / (2 * 1 ^ 2)) + 0))) :=
  catsettime_shared_center_width cstEx 0 1 0 1 2 []

/-- Counterexample to C3 as stated: `cstEx.param_names` has five entries,
yet `model` and `objective` succeed on a six-entry parameter vector —
`CatSetTime` reads `x[0] .. x[4]` by indexing and silently ignores the
extra entry rather than signalling an error. -/
theorem catsettime_accepts_extra_params :
    ([0, 1, 0, 1, 2, 3] : List ℝ).length ≠ cstEx.param_names.length ∧
    (cstEx.model [0, 1, 0, 1, 2, 3]).isSome = true ∧
    (cstEx.objective [0, 1, 0, 1, 2, 3]).isSome = true := by
  refine ⟨?_, rfl, rfl⟩
  simp [cstEx, CatSetTime.fromData]

/-- Claim C3 amended: `Time.model`/`Time.objective` (tuple unpacking) fail
on every vector whose length differs from 4; `CatSetTime.model`/
`CatSetTime.objective` (indexing) fail on vectors shorter than 5 but
silently ignore extra entries of longer vectors. -/
theorem param_count_mismatch_detection :
    (∀ (m : Time) (x : List ℝ), x.length ≠ 4 →
      m.model x = none ∧ m.objective x = none) ∧
    (∀ (m : CatSetTime) (x : List ℝ), x.length < 5 →
      m.model x = none ∧ m.objective x = none) ∧
    (∀ (m : CatSetTime) (x : List ℝ), 5 ≤ x.length →
      (m.model x).isSome = true ∧ (m.objective x).isSome = true) := by
  refine ⟨?_, ?_, ?_⟩
  · intro m x h
    match x with
    | [] => exact ⟨rfl, rfl⟩
    | [a] => exact ⟨rfl, rfl⟩
    | [a, b] => exact ⟨rfl, rfl⟩
    | [a, b, c] => exact ⟨rfl, rfl⟩
    | [a, b, c, d] => simp at h
    | a :: b :: c :: d :: e :: rest => exact ⟨rfl, rfl⟩
  · intro m x h
    match x with
    | [] => exact ⟨rfl, rfl⟩
    | [a] => exact ⟨rfl, rfl⟩
    | [a, b] => exact ⟨rfl, rfl⟩
    | [a, b, c] => exact ⟨rfl, rfl⟩
    | [a, b, c, d] => exact ⟨rfl, rfl⟩
    | a :: b :: c :: d :: e :: rest =>
        simp only [List.length_cons] at h
        omega
  · intro m x h
    match x with
    | [] => simp at h
    | [a] => simp at h
    | [a, b] => simp at h
    | [a, b, c] => simp at h
    | [a, b, c, d] => simp at h
    | a :: b :: c :: d :: e :: rest => exact ⟨rfl, rfl⟩

/-- Witness for the amended C3 at concrete inputs: a two-entry vector is
rejected by both models, and a six-entry vector is accepted by
`CatSetTime`. -/
theorem param_count_mismatch_detection_witness :
    (tEx.model [1, 2] = none ∧ tEx.objective [1, 2] = none) ∧
    (cstEx.model [1, 2] = none ∧ cstEx.objective [1, 2] = none) ∧
    ((cstEx.model [0, 1, 0, 1, 2, 3]).isSome = true ∧
      (cstEx.objective [0, 1, 0, 1, 2, 3]).isSome = true) :=
  ⟨param_count_mismatch_detection.1 tEx [1, 2] (by simp),
   param_count_mismatch_detection.2.1 cstEx [1, 2] (by simp),
   param_count_mismatch_detection.2.2 cstEx [0, 1, 0, 1, 2, 3] (by simp)⟩

/-- Claim C4: the `param_names` list set in each constructor has exactly
the arity the corresponding `model` consumes from the solver's vector
(4 for `Time`, 5 for `CatSetTime`), and the list order matches the
positional roles of the vector entries in the formula: for `Time`,
positions 0..3 are amplitude `a_1`, center `ut`, width `st`, offset
`a_0`; for `CatSetTime`, positions 0..4 are `ut`, `st`, `a_0`, `a_1`,
`a_2`. -/
theorem param_names_match_unpack_arity_and_order :
    (∀ d : TimeData,
      (Time.fromData d).param_names = ["a_1", "ut", "st", "a_0"] ∧
      (Time.fromData d).param_names.length = 4) ∧
    (∀ (m : Time) (x : List ℝ), (m.model x).isSome = true ↔ x.length = 4) ∧
    (∀ (m : Time) (a_1 ut st a_0 : ℝ),
      (m.model [a_1, ut, st, a_0]).map Prod.fst =
        some (m.t.map (fun tv =>
          a_1 * Real.exp (-(tv - ut) ^ 2 / (2 * st ^ 2)) + a_0))) ∧
    (∀ d : CatData,
      (CatSetTime.fromData d).param_names = ["ut", "st", "a_0", "a_1", "a_2"] ∧
      (CatSetTime.fromData d).param_names.length = 5) ∧
    (∀ (m : CatSetTime) (x : List ℝ),
      (m.model x).isSome = true ↔ 5 ≤ x.length) ∧
    (∀ (m : CatSetTime) (ut st a_0 a_1 a_2 : ℝ),
      (m.model [ut, st, a_0, a_1, a_2]).map Prod.fst =
        some ((((m.conditions 1).zip (m.conditions 2)).zip m.t).map (fun cr =>
          cr.2.map (fun tv =>
            a_1 * cr.1.1 * Real.exp (-(tv - ut) ^ 2 / (2 * st ^ 2)) +
              a_2 * cr.1.2 * Real.exp (-(tv - ut) ^ 2 / (2 * st ^ 2)) + a_0)))) := by
  refine ⟨fun d => ⟨rfl, rfl⟩, ?_, fun m a_1 ut st a_0 => rfl,
    fun d => ⟨rfl, rfl⟩, ?_, fun m ut st a_0 a_1 a_2 => rfl⟩
  · intro m x
    match x with
    | [] => simp [Time.model]
    | [a] => simp [Time.model]
    | [a, b] => simp [Time.model]
    | [a, b, c] => simp [Time.model]
    | [a, b, c, d] => simp [Time.model]
    | a :: b :: c :: d :: e :: rest => simp [Time.model]
  · intro m x
    match x with
    | [] => simp [CatSetTime.model]
    | [a] => simp [CatSetTime.model]
    | [a, b] => simp [CatSetTime.model]
    | [a, b, c] => simp [CatSetTime.model]
    | [a, b, c, d] => simp [CatSetTime.model]
    | a :: b :: c :: d :: e :: rest => simp [CatSetTime.model]

/-- Counterexample to C5 as stated: on the degenerate instance `tEmpty`
(no samples, no observations) every observation is vacuously in `{0, 1}`
and every prediction is vacuously inside `(0, 1)`, yet the objective is
`0`, which is not strictly positive. -/
theorem time_objective_zero_on_empty_data :
    (tEmpty.model [1, 0, 1, 0]).map Prod.fst = some [] ∧
    (∀ o ∈ tEmpty.spikes, o = 0 ∨ o = 1) ∧
    (tEmpty.objective [1, 0, 1, 0]).map Prod.fst = some 0 ∧
    ¬ (0 : ℝ) < 0 := by
  exact ⟨rfl, by simp [tEmpty, Time.fromData], rfl, by norm_num⟩

/-- Claim C5 amended: for the `Time` model, whenever there is at least
one observation, the observations are aligned with the prediction, every
observed value is in `{0, 1}` and every predicted value lies strictly
inside `(0, 1)`, the objective is a strictly positive (hence non-negative
and finite) real number. -/
theorem time_objective_pos (m : Time) (x p : List ℝ)
    (hm : (m.model x).map Prod.fst = some p)
    (hne : m.spikes ≠ []) (hlen : m.spikes.length = p.length)
    (hobs : ∀ o ∈ m.spikes, o = 0 ∨ o = 1)
    (hpred : ∀ q ∈ p, 0 < q ∧ q < 1) :
    (m.objective x).map Prod.fst = some (nllSum m.spikes p) ∧
    0 < nllSum m.spikes p := by
  constructor
  · obtain ⟨a, ha, hfa⟩ := Option.map_eq_some'.mp hm
    simp [Time.objective, ha, hfa]
  · exact nllSum_pos m.spikes p hne hlen hobs hpred

/-- Witness for the amended C5: on `tEx` (one spike observed at `t = 0`)
with parameters `(1/2, 0, 1, 0)` the prediction is `[1/2]` and the
objective is strictly positive. -/
theorem time_objective_pos_witness :
    (tEx.objective [1 / 2, 0, 1, 0]).map Prod.fst =
      some (nllSum tEx.spikes [1 / 2]) ∧
    0 < nllSum tEx.spikes [1 / 2] :=
  time_objective_pos tEx [1 / 2, 0, 1, 0] [1 / 2]
    (by norm_num [Time.model, tEx, Time.fromData, Real.exp_zero])
    (by simp [tEx, Time.fromData]) rfl
    (by norm_num [tEx, Time.fromData])
    (by norm_num)

/-- Claim C6: with held indicators that differ across trials
(`cstEx.conditions 1 = [1, 0]`, `cstEx.conditions 2 = [0, 1]`) and
amplitudes `a_1 = 1 ≠ 2 = a_2`, exchanging which indicator is multiplied
by which amplitude changes the returned prediction: the pairing does not
silently commute. -/
theorem catsettime_pairing_not_commutative :
    cstEx.conditions 1 ≠ cstEx.conditions 2 ∧
    (1 : ℝ) ≠ 2 ∧
    (cstEx.model [0, 1, 0, 1, 2]).map Prod.fst ≠
      (cstEx.modelSwapped [0, 1, 0, 1, 2]).map Prod.fst := by
  refine ⟨?_, by norm_num, ?_⟩
  · norm_num [cstEx, CatSetTime.fromData]
  · norm_num [CatSetTime.model, CatSetTime.modelSwapped, cstEx,
      CatSetTime.fromData, Real.exp_zero, List.replicate_succ,
      List.zip_cons_cons]

/-- Claim C7: `model` and `objective` are deterministic functions of the
held data and the parameter vector.  For `Time`, outputs depend only on
the time window and the spikes (in particular not on the `function`
cache), and a repeated call on the state a call produced returns the very
same value and state; for `CatSetTime`, outputs depend only on the tiled
window, the spikes and the condition table (not on `plot_t`).  Two
instances built from identical data therefore agree at every `x`. -/
theorem model_objective_deterministic :
    (∀ m₁ m₂ : Time, m₁.t = m₂.t → m₁.spikes = m₂.spikes →
      ∀ x : List ℝ,
        (m₁.model x).map Prod.fst = (m₂.model x).map Prod.fst ∧
        (m₁.objective x).map Prod.fst = (m₂.objective x).map Prod.fst) ∧
    (∀ (m : Time) (x p : List ℝ) (m' : Time),
      m.model x = some (p, m') → m'.model x = some (p, m')) ∧
    (∀ m₁ m₂ : CatSetTime, m₁.t = m₂.t → m₁.spikes = m₂.spikes →
      m₁.conditions = m₂.conditions → ∀ x : List ℝ,
        (m₁.model x).map Prod.fst = (m₂.model x).map Prod.fst ∧
        (m₁.objective x).map Prod.fst = (m₂.objective x).map Prod.fst) := by
  refine ⟨?_, ?_, ?_⟩
  · intro m₁ m₂ ht hs x
    match x with
    | [] => simp [Time.model, Time.objective]
    | [a] => simp [Time.model, Time.objective]
    | [a, b] => simp [Time.model, Time.objective]
    | [a, b, c] => simp [Time.model, Time.objective]
    | [a, b, c, d] => simp [Time.model, Time.objective, ht, hs]
    | a :: b :: c :: d :: e :: rest => simp [Time.model, Time.objective]
  · intro m x p m' h
    match x with
    | [] => simp [Time.model] at h
    | [a] => simp [Time.model] at h
    | [a, b] => simp [Time.model] at h
    | [a, b, c] => simp [Time.model] at h
    | a :: b :: c :: d :: e :: rest => simp [Time.model] at h
    | [a, b, c, d] =>
        simp only [Time.model, Option.some_inj, Prod.mk.injEq] at h
        obtain ⟨h1, h2⟩ := h
        subst h1
        subst h2
        rfl
  · intro m₁ m₂ ht hs hc x
    match x with
    | [] => simp [CatSetTime.model, CatSetTime.objective]
    | [a] => simp [CatSetTime.model, CatSetTime.objective]
    | [a, b] => simp [CatSetTime.model, CatSetTime.objective]
    | [a, b, c] => simp [CatSetTime.model, CatSetTime.objective]
    | [a, b, c, d] => simp [CatSetTime.model, CatSetTime.objective]
    | a :: b :: c :: d :: e :: rest =>
        simp [CatSetTime.model, CatSetTime.objective, ht, hs, hc]

/-- Witness for C7 at concrete inputs: a stale cache (`tExCache`) does
not change `tEx`'s prediction; calling again in the state `tExM` produced
by `tEx.model [1, 0, 1, 0]` returns the same value and state; and a
different plotting window (`cstEx2`) does not change `cstEx`'s
prediction. -/
theorem model_objective_deterministic_witness :
    (tEx.model [1, 0, 1, 0]).map Prod.fst =
      (tExCache.model [1, 0, 1, 0]).map Prod.fst ∧
    tExM.model [1, 0, 1, 0] = some (tExF, tExM) ∧
    (cstEx.model [0, 1, 0, 1, 2]).map Prod.fst =
      (cstEx2.model [0, 1, 0, 1, 2]).map Prod.fst :=
  ⟨(model_objective_deterministic.1 tEx tExCache rfl rfl [1, 0, 1, 0]).1,
   model_objective_deterministic.2.1 tEx [1, 0, 1, 0] tExF tExM rfl,
   (model_objective_deterministic.2.2 cstEx cstEx2 rfl rfl rfl [0, 1, 0, 1, 2]).1⟩

/-- Claim C8: a call to `model` or `objective` leaves the held data
unchanged — for `Time` the resulting state keeps the same time window,
spikes and `param_names` (only the `function` cache may be written); for
`CatSetTime` the resulting state is the unchanged receiver. -/
theorem model_objective_frame_condition :
    (∀ (m : Time) (x : List ℝ),
      (m.model x).map (fun pr => (pr.2.t, pr.2.spikes, pr.2.param_names)) =
        (m.model x).map (fun _ => (m.t, m.spikes, m.param_names)) ∧
      (m.objective x).map (fun pr => (pr.2.t, pr.2.spikes, pr.2.param_names)) =
        (m.objective x).map (fun _ => (m.t, m.spikes, m.param_names))) ∧
    (∀ (m : CatSetTime) (x : List ℝ),
      (m.model x).map Prod.snd = (m.model x).map (fun _ => m) ∧
      (m.objective x).map Prod.snd = (m.objective x).map (fun _ => m)) := by
  constructor
  · intro m x
    match x with
    | [] => exact ⟨rfl, rfl⟩
    | [a] => exact ⟨rfl, rfl⟩
    | [a, b] => exact ⟨rfl, rfl⟩
    | [a, b, c] => exact ⟨rfl, rfl⟩
    | [a, b, c, d] => exact ⟨rfl, rfl⟩
    | a :: b :: c :: d :: e :: rest => exact ⟨rfl, rfl⟩
  · intro m x
    match x with
    | [] => exact ⟨rfl, rfl⟩
    | [a] => exact ⟨rfl, rfl⟩
    | [a, b] => exact ⟨rfl, rfl⟩
    | [a, b, c] => exact ⟨rfl, rfl⟩
    | [a, b, c, d] => exact ⟨rfl, rfl⟩
    | a :: b :: c :: d :: e :: rest => exact ⟨rfl, rfl⟩

/-- Claim C10: after any successful `Time.model` call the instance's
`function` attribute holds exactly the returned prediction, and
`Time.objective` leaves the instance in the same state as the `model`
call it makes internally. -/
theorem time_model_caches_returned_prediction :
    ∀ (m : Time) (x : List ℝ),
      (m.model x).map (fun pr => pr.2.function) =
        (m.model x).map (fun pr => some pr.1) ∧
      (m.objective x).map Prod.snd = (m.model x).map Prod.snd := by
  intro m x
  match x with
  | [] => exact ⟨rfl, rfl⟩
  | [a] => exact ⟨rfl, rfl⟩
  | [a, b] => exact ⟨rfl, rfl⟩
  | [a, b, c] => exact ⟨rfl, rfl⟩
  | [a, b, c, d] => exact ⟨rfl, rfl⟩
  | a :: b :: c :: d :: e :: rest => exact ⟨rfl, rfl⟩
